import Mathlib

/-!
AnyTone D578 backend: `rigs/anytone/anytone.c`

A shallow embedding of the serial transaction code of the AnyTone backend and
of its keep-alive thread, followed by the properties of the specification that
were checked against it.

Conventions of the embedding.

* A `RIG *` is an `Option RIG`: `none` is the NULL pointer, `some r` a pointer to
  the object `r`.  `rig->state.priv` is an `Option anytone_priv_data_t` in the
  same way.
* Every function returns an `Option`: `none` means that the C function
  dereferenced a NULL pointer (undefined behaviour, in practice a crash) and
  did not return.
* The serial port is not under `src/`.  It is an environment, `World`: the
  result of the k-th `write_block` and of the k-th read are given by the world,
  and the world keeps an ordered log (`trace`) of every lock operation,
  transport call, sleep and store to the private data that the code performs.
* Bytes are natural numbers below 256, `int` values are integers.
* `ENTERFUNC`, `RETURNFUNC`, `rig_debug`, `rig_need_debug` and `rig_set_debug`
  only concern logging; they are not embedded.
-/

namespace Anytone

/-! ## Types and constants of the missing headers -/

/-- Modelled from the spec: `vfo_t` and the RIG_VFO_ constants are declared in
hamlib/rig.h, which is not under src/.  Section 3 gives the VFO field as
`enum{A, B, Unknown}`; Unknown is the source's `RIG_VFO_NONE`. -/
inductive vfo_t where
  | RIG_VFO_NONE
  | RIG_VFO_A
  | RIG_VFO_B
  deriving DecidableEq, Repr

open vfo_t

/-- Modelled from the spec: success code of hamlib/rig.h (not under src/). -/
def RIG_OK : Int := 0

/-- Modelled from the spec: OutOfMemory of section 7; the number is the one of
hamlib's `rig_errcode_e`, the functions return it negated. -/
def RIG_ENOMEM : Int := 3

/-- Modelled from the spec: Timeout of section 7 (returned negated). -/
def RIG_ETIMEOUT : Int := 5

/-- Modelled from the spec: IOError of section 7 (returned negated). -/
def RIG_EIO : Int := 6

/-- Modelled from the spec: InvalidArgument of section 7 (returned negated). -/
def RIG_EARG : Int := 15

/-- Modelled from the spec: `anytone_priv_data_t` is declared in anytone.h,
which is not under src/.  The fields are the ones the source file uses:
`ptt` (pttActive), `vfo_curr` (currentVfo) and `runflag` (keepAliveRunning). -/
structure anytone_priv_data_t where
  ptt : Int
  vfo_curr : vfo_t
  runflag : Int
  deriving DecidableEq, Repr

/-- The part of `RIG` the file uses besides the port: `rig->state.priv`. -/
structure RIG where
  priv : Option anytone_priv_data_t
  deriving DecidableEq, Repr

/-- The argument written in a `MUTEX_LOCK(...)` / `MUTEX_UNLOCK(...)` call.  The
foreground operations write `p->mutex`, the keep-alive thread writes
`p->priv.mutex`. -/
inductive LockRef where
  | p_mutex
  | p_priv_mutex
  deriving DecidableEq, Repr

/-- One entry of the ordered log of effects. -/
inductive Ev where
  | lock (m : LockRef)
  | unlock (m : LockRef)
  | flush
  | write_block (bytes : List Nat)
  | read_string (buf_len : Nat) (expected : Int)
  | read_block (count : Nat)
  | usleep (us : Nat)
  | store_vfo_curr (v : vfo_t)
  | store_ptt (v : Int)
  | store_runflag (v : Int)
  deriving DecidableEq, Repr

/-- What one read call of the transport does: the `int` it returns (a byte
count, or a negated error code) and the bytes it stored at the start of the
caller's buffer. -/
structure ReadOutcome where
  ret : Int
  data : List Nat
  deriving DecidableEq, Repr

/-- The environment of the driver.
`write_ret k` is the value returned by the k-th `write_block` call,
`read_out k` the outcome of the k-th read call (`read_string` or `read_block`),
`uninit k i` the indeterminate content of byte `i` of an uninitialised
automatic buffer handed to the k-th read call, `char_signed` says whether plain
`char` is signed, `nwrites` / `nreads` count the calls made so far and `trace`
is the log. -/
structure World where
  write_ret : Nat → Int
  read_out : Nat → ReadOutcome
  uninit : Nat → Nat → Nat
  char_signed : Bool
  nwrites : Nat
  nreads : Nat
  trace : List Ev

/-- Append one entry to the log. -/
def emit (e : Ev) (w : World) : World :=
  { w with trace := w.trace ++ [e] }

/-! ## The transport and the other external primitives -/

/-- Modelled from the spec: `rig_flush` of the host framework, `flush(port)` of
section 1; its return value is never used by the file. -/
def rig_flush (w : World) : World :=
  emit Ev.flush w

/-- Modelled from the spec: `write_block` of the host framework,
`write(port, bytes)` of section 1.  Writes the first `count` bytes of `bytes`
and returns `RIG_OK` or a negated error code, as the environment decides. -/
def write_block (bytes : List Nat) (count : Nat) (w : World) : Int × World :=
  (w.write_ret w.nwrites,
   emit (Ev.write_block (bytes.take count)) { w with nwrites := w.nwrites + 1 })

/-- Content of a buffer after a read stored `data` at its start. -/
def fill (buf data : List Nat) : List Nat :=
  (data ++ buf.drop data.length).take buf.length

/-- Modelled from the spec: `read_string` of the host framework, a read of up to
`buf_len` bytes with an expected-length hint.  Returns the number of bytes read
or a negated error code. -/
def read_string (buf : List Nat) (buf_len : Nat) (expected : Int) (w : World) :
    Int × List Nat × World :=
  let r := w.read_out w.nreads
  (r.ret, fill buf r.data,
   emit (Ev.read_string buf_len expected) { w with nreads := w.nreads + 1 })

/-- Modelled from the spec: `read_block` of the host framework, a blocking read
of `count` bytes.  Returns the number of bytes read or a negated error code. -/
def read_block (buf : List Nat) (count : Nat) (w : World) :
    Int × List Nat × World :=
  let r := w.read_out w.nreads
  (r.ret, fill buf r.data,
   emit (Ev.read_block count) { w with nreads := w.nreads + 1 })

/-- Modelled from the spec: `hl_usleep` of the host framework, a sleep of `us`
microseconds. -/
def hl_usleep (us : Nat) (w : World) : World :=
  emit (Ev.usleep us) w

/-- Modelled from the spec: `MUTEX_LOCK` is defined in anytone.h, which is not
under src/; the call is logged with the argument the source writes. -/
def MUTEX_LOCK (m : LockRef) (w : World) : World :=
  emit (Ev.lock m) w

/-- Modelled from the spec: `MUTEX_UNLOCK` is defined in anytone.h, which is not
under src/; the call is logged with the argument the source writes. -/
def MUTEX_UNLOCK (m : LockRef) (w : World) : World :=
  emit (Ev.unlock m) w

/-- Value of `buf[i]` for `char *buf`: a byte above 127 is negative where plain
`char` is signed. -/
def char_at (signed : Bool) (buf : List Nat) (i : Nat) : Int :=
  let b := buf.getD i 0
  if signed && decide (128 ≤ b) then (b : Int) - 256 else (b : Int)

/-- Value of `reply[i]` for `unsigned char reply[]`. -/
def uchar_at (buf : List Nat) (i : Nat) : Nat :=
  buf.getD i 0

/-- Result of a driver function: `none` if it dereferenced NULL, otherwise its
return value, the rig object behind the handle and the world afterwards. -/
abbrev Res (α : Type) : Type := Option (α × Option RIG × World)

/-! ## anytone.c -/

/-- The body of the loop of `anytone_thread` (lines 131 to 137). -/
def anytone_thread_body (w : World) : World :=
  let c : Nat := 0x06
  let w := MUTEX_LOCK LockRef.p_priv_mutex w
  let w := (write_block [c] 1 w).2
  let w := hl_usleep (100 * 1000) w
  let w := rig_flush w
  let w := MUTEX_UNLOCK LockRef.p_priv_mutex w
  hl_usleep (1000 * 1000) w

/-- The loop `while (p->runflag) { ... }` of `anytone_thread`, run for at most
`fuel` evaluations of the loop condition. -/
def anytone_thread_loop : Nat → anytone_priv_data_t → World → World
  | 0, _, w => w
  | fuel + 1, p, w =>
    if p.runflag ≠ 0 then anytone_thread_loop fuel p (anytone_thread_body w) else w

/-- The thread `anytone_thread` (lines 116 to 142), its loop cut after `fuel`
evaluations of the loop condition. -/
def anytone_thread (fuel : Nat) (vrig : Option RIG) (w : World) : Option (RIG × World) :=
  match vrig with
  | none => none
  | some rig =>
    match rig.priv with
    | none => none
    | some p =>
      let p := { p with runflag := 1 }
      let w := emit (Ev.store_runflag 1) w
      some ({ rig with priv := some p }, anytone_thread_loop fuel p w)

/-- The function `anytone_send` (lines 147 to 161). -/
def anytone_send (cmd : List Nat) (cmd_len : Nat) (w : World) : Int × World :=
  let w := rig_flush w
  write_block cmd cmd_len w

/-- The function `anytone_receive` (lines 166 to 184). -/
def anytone_receive (buf : List Nat) (buf_len : Nat) (expected : Int) (w : World) :
    Int × List Nat × World :=
  let (retval, buf, w) := read_string buf buf_len expected w
  if retval > 0 then (RIG_OK, buf, w) else (retval, buf, w)

/-- The function `anytone_transaction` (lines 189 to 220).  `calloc(64, 1)` is
taken to succeed. -/
def anytone_transaction (rig : Option RIG) (cmd : List Nat) (cmd_len : Nat)
    (expected_len : Int) (w : World) : Res Int :=
  -- line 192: anytone_priv_data_t *p = rig->state.priv;
  match rig with
  | none => none
  | some r =>
    if rig.isNone then some (-RIG_EARG, rig, w)
    else
      let (retval, w) := anytone_send cmd cmd_len w
      if retval = RIG_OK ∧ expected_len ≠ 0 then
        let (len, buf, w) := anytone_receive (List.replicate 64 0) 64 expected_len w
        if len = 16 ∧ char_at w.char_signed buf 0 = 0xaa ∧ char_at w.char_signed buf 1 = 0x53 then
          match r.priv with
          | none => none
          | some p =>
            let v := if char_at w.char_signed buf 8 = 0x00 then RIG_VFO_A else RIG_VFO_B
            some (retval, some { r with priv := some { p with vfo_curr := v } },
                  emit (Ev.store_vfo_curr v) w)
        else some (retval, rig, w)
      else some (retval, rig, w)

/-- The function `anytone_init` (lines 225 to 253); `calloc_ok` says whether
`calloc` returned memory (which is then zeroed). -/
def anytone_init (rig : Option RIG) (calloc_ok : Bool) : Option (Int × Option RIG) :=
  match rig with
  | some r =>
    let p : Option anytone_priv_data_t :=
      if calloc_ok then some { ptt := 0, vfo_curr := RIG_VFO_NONE, runflag := 0 } else none
    let retval := if p.isNone then -RIG_ENOMEM else RIG_OK
    -- rig->state.priv = p;
    let r := { r with priv := p }
    -- p->vfo_curr = RIG_VFO_NONE;
    match p with
    | none => none
    | some pd =>
      some (retval, some { r with priv := some { pd with vfo_curr := RIG_VFO_NONE } })
  | none => some (RIG_OK, none)

/-- The function `anytone_cleanup` (lines 258 to 278). -/
def anytone_cleanup (rig : Option RIG) : Int × Option RIG :=
  match rig with
  | none => (-RIG_EARG, none)
  | some r => (RIG_OK, some { r with priv := none })

/-- The statements shared, word for word, by the two branches of
`anytone_set_vfo` (lines 381 to 396 and 400 to 413). -/
def anytone_set_vfo_branch (rig : Option RIG) (w : World) : Res Int :=
  let buf1 : List Nat := [0x41, 0x00, 0x01, 0x00, 0x0d, 0x00, 0x00, 0x06]
  let buf2 : List Nat := [0x41, 0x00, 0x00, 0x00, 0x0d, 0x00, 0x00, 0x06]
  let w := MUTEX_LOCK LockRef.p_mutex w
  match anytone_transaction rig buf1 8 0 w with
  | none => none
  | some (_, rig, w) =>
    let w := hl_usleep (100 * 1000) w
    match anytone_transaction rig buf2 8 0 w with
    | none => none
    | some (_, rig, w) =>
      let reply0 : List Nat := List.ofFn (fun i : Fin 16 => w.uninit w.nreads i)
      let (_, reply, w) := read_block reply0 16 w
      match rig with
      | none => none
      | some r =>
        match r.priv with
        | none => none
        | some p =>
          let v := if uchar_at reply 8 = 0x00 then RIG_VFO_A else RIG_VFO_B
          let w := emit (Ev.store_vfo_curr v) w
          let w := MUTEX_UNLOCK LockRef.p_mutex w
          some (RIG_OK, some { r with priv := some { p with vfo_curr := v } }, w)

/-- The function `anytone_set_vfo` (lines 364 to 419). -/
def anytone_set_vfo (rig : Option RIG) (vfo : vfo_t) (w : World) : Res Int :=
  -- line 367: anytone_priv_data_t *p = rig->state.priv;
  match rig with
  | none => none
  | some _ =>
    if rig.isNone then some (-RIG_EARG, rig, w)
    else if vfo = RIG_VFO_A then anytone_set_vfo_branch rig w
    else anytone_set_vfo_branch rig w

/-- The function `anytone_get_vfo` (lines 331 to 359); the second component is
the value stored in `*vfo`, if any. -/
def anytone_get_vfo (rig : Option RIG) (w : World) : Res (Int × Option vfo_t) :=
  match rig with
  | none => some ((-RIG_EARG, none), none, w)
  | some r =>
    match r.priv with
    | none => none
    | some p =>
      if p.vfo_curr = RIG_VFO_NONE then
        match anytone_set_vfo rig RIG_VFO_B w with
        | none => none
        | some (_, rig, w) =>
          match anytone_set_vfo rig RIG_VFO_A w with
          | none => none
          | some (_, rig, w) =>
            match rig with
            | none => none
            | some r2 =>
              match r2.priv with
              | none => none
              | some p2 => some ((RIG_OK, some p2.vfo_curr), rig, w)
      else some ((RIG_OK, some p.vfo_curr), rig, w)

/-- The function `anytone_get_ptt` (lines 424 to 442); the second component is
the value stored in `*ptt`, if any. -/
def anytone_get_ptt (rig : Option RIG) (w : World) : Res (Int × Option Int) :=
  match rig with
  | none => some ((-RIG_EARG, none), none, w)
  | some r =>
    match r.priv with
    | none => none
    | some p => some ((RIG_OK, some p.ptt), rig, w)

/-- The function `anytone_set_ptt` (lines 446 to 470). -/
def anytone_set_ptt (rig : Option RIG) (ptt : Int) (w : World) : Res Int :=
  match rig with
  | none => some (-RIG_EARG, none, w)
  | some _ =>
    let buf : List Nat := [0x41, 0x00, 0x00, 0x00, 0x00, 0x00, 0x00, 0x06]
    let buf := if ptt ≠ 0 then buf.set 1 0x01 else buf
    let w := MUTEX_LOCK LockRef.p_mutex w
    match anytone_transaction rig buf 8 1 w with
    | none => none
    | some (_, rig, w) =>
      match rig with
      | none => none
      | some r =>
        match r.priv with
        | none => none
        | some p =>
          let w := emit (Ev.store_ptt ptt) w
          let w := MUTEX_UNLOCK LockRef.p_mutex w
          some (RIG_OK, some { r with priv := some { p with ptt := ptt } }, w)

/-! ## Observations and sample inputs -/

/-- What the caller and the log show of a result: the return value, the rig
object behind the handle and the log of effects. -/
def observe {α : Type} (x : Res α) : Option (α × Option RIG × List Ev) :=
  x.map (fun y => (y.1, y.2.1, y.2.2.trace))

/-- The VFO that the driver derives from a status byte: A for 0x00, else B. -/
def vfo_of_byte (b : Nat) : vfo_t :=
  if b = 0x00 then RIG_VFO_A else RIG_VFO_B

/-- First frame of the VFO toggle. -/
def vfo_frame1 : List Nat := [0x41, 0x00, 0x01, 0x00, 0x0d, 0x00, 0x00, 0x06]

/-- Second frame of the VFO toggle. -/
def vfo_frame2 : List Nat := [0x41, 0x00, 0x00, 0x00, 0x0d, 0x00, 0x00, 0x06]

/-- The log entries of one `anytone_set_vfo` call that stores the VFO `v`. -/
def set_vfo_events (v : vfo_t) : List Ev :=
  [Ev.lock LockRef.p_mutex,
   Ev.flush, Ev.write_block vfo_frame1,
   Ev.usleep 100000,
   Ev.flush, Ev.write_block vfo_frame2,
   Ev.read_block 16,
   Ev.store_vfo_curr v,
   Ev.unlock LockRef.p_mutex]

/-- A fresh world: nothing logged yet, writes answer `wr`, reads answer `rd`,
uninitialised memory holds 0xff and plain `char` is signed. -/
def world_of (wr : Nat → Int) (rd : Nat → ReadOutcome) : World :=
  { write_ret := wr, read_out := rd, uninit := fun _ _ => 0xff, char_signed := true,
    nwrites := 0, nreads := 0, trace := [] }

/-- A status reply of 16 bytes with signature 0xAA 0x53 and `b` at offset 8. -/
def status_reply (b : Nat) : ReadOutcome :=
  { ret := 16, data := [0xaa, 0x53, 0, 0, 0, 0, 0, 0, b, 0, 0, 0, 0, 0, 0, 0] }

/-- A device state as `anytone_init` leaves it, with the given VFO. -/
def priv_of (v : vfo_t) : anytone_priv_data_t :=
  { ptt := 0, vfo_curr := v, runflag := 0 }

/-- Content of `reply[]` in `anytone_set_vfo` after the k-th read call: the
bytes delivered, then what the uninitialised array held. -/
def reply_buffer (w : World) (k : Nat) : List Nat :=
  fill (List.ofFn (fun i : Fin 16 => w.uninit k i)) (w.read_out k).data

/-- The VFO that `anytone_set_vfo` stores when it starts in world `w`. -/
def set_vfo_result (w : World) : vfo_t :=
  vfo_of_byte (uchar_at (reply_buffer w w.nreads) 8)

/-- The world after one `anytone_set_vfo` call started in `w`. -/
def set_vfo_world (w : World) : World :=
  { w with nwrites := w.nwrites + 2, nreads := w.nreads + 1,
           trace := w.trace ++ set_vfo_events (set_vfo_result w) }

/-- The command frame `anytone_set_ptt` builds for the request `ptt`. -/
def ptt_frame (ptt : Int) : List Nat :=
  [0x41, if ptt ≠ 0 then 0x01 else 0x00, 0x00, 0x00, 0x00, 0x00, 0x00, 0x06]

/-- The log entries of one `anytone_set_ptt` call; the reply read is there
exactly when the write returned `RIG_OK`. -/
def set_ptt_events (ptt : Int) (write_ret : Int) : List Ev :=
  [Ev.lock LockRef.p_mutex, Ev.flush, Ev.write_block (ptt_frame ptt)]
    ++ (if write_ret = RIG_OK then [Ev.read_string 64 1] else [])
    ++ [Ev.store_ptt ptt, Ev.unlock LockRef.p_mutex]

/-- The world after one `anytone_set_ptt` call started in `w`. -/
def set_ptt_world (ptt : Int) (w : World) : World :=
  { w with nwrites := w.nwrites + 1,
           nreads := if w.write_ret w.nwrites = RIG_OK then w.nreads + 1 else w.nreads,
           trace := w.trace ++ set_ptt_events ptt (w.write_ret w.nwrites) }

/-- The log entries of one iteration of the keep-alive loop. -/
def keepalive_events : List Ev :=
  [Ev.lock LockRef.p_priv_mutex,
   Ev.write_block [0x06],
   Ev.usleep 100000,
   Ev.flush,
   Ev.unlock LockRef.p_priv_mutex,
   Ev.usleep 1000000]

/-- The iteration as the specification words it: lock, write of 0x06, 100 ms
sleep, flush, unlock, 900 ms sleep. -/
def spec_keepalive_events : List Ev :=
  [Ev.lock LockRef.p_priv_mutex,
   Ev.write_block [0x06],
   Ev.usleep 100000,
   Ev.flush,
   Ev.unlock LockRef.p_priv_mutex,
   Ev.usleep 900000]

/-- The world after `n` iterations of the keep-alive loop started in `w`. -/
def keepalive_world (n : Nat) (w : World) : World :=
  { w with nwrites := w.nwrites + n,
           trace := w.trace ++ (List.replicate n keepalive_events).flatten }

/-! ## Helper lemmas -/

theorem fill_getElem?_of_lt (buf data : List Nat) (i : Nat) (h1 : i < data.length)
    (h2 : i < buf.length) : (fill buf data)[i]? = data[i]? := by
  unfold fill
  rw [List.getElem?_take_of_lt h2, List.getElem?_append_left h1]

/-- The value `anytone_receive` returns is never positive: a positive byte
count is replaced by `RIG_OK`. -/
theorem anytone_receive_fst (buf : List Nat) (n : Nat) (e : Int) (w : World) :
    (anytone_receive buf n e w).1
      = if (w.read_out w.nreads).ret > 0 then RIG_OK else (w.read_out w.nreads).ret := by
  unfold anytone_receive read_string
  dsimp only
  split <;> rfl

theorem anytone_receive_ne_16 (buf : List Nat) (n : Nat) (e : Int) (w : World) :
    (anytone_receive buf n e w).1 ≠ 16 := by
  rw [anytone_receive_fst]
  unfold RIG_OK
  split <;> omega

theorem anytone_receive_world (buf : List Nat) (n : Nat) (e : Int) (w : World) :
    (anytone_receive buf n e w).2.2
      = emit (Ev.read_string n e) { w with nreads := w.nreads + 1 } := by
  unfold anytone_receive read_string
  dsimp only
  split <;> rfl

/-- What `anytone_transaction` does on a non-null handle: it returns the value
of the write, leaves the rig object as it is, and reads once exactly when the
write returned `RIG_OK` and the expected length is not zero. -/
theorem anytone_transaction_some (r : RIG) (cmd : List Nat) (n : Nat) (e : Int) (w : World) :
    anytone_transaction (some r) cmd n e w
      = some (w.write_ret w.nwrites, some r,
          if w.write_ret w.nwrites = RIG_OK ∧ e ≠ 0 then
            emit (Ev.read_string 64 e)
              { (anytone_send cmd n w).2 with nreads := w.nreads + 1 }
          else (anytone_send cmd n w).2) := by
  unfold anytone_transaction
  simp only [Option.isNone_some, Bool.false_eq_true, if_false]
  have hs2 : (anytone_send cmd n w).2.nreads = w.nreads := rfl
  by_cases hc : w.write_ret w.nwrites = RIG_OK ∧ e ≠ 0
  · have hc1 : (anytone_send cmd n w).1 = RIG_OK ∧ e ≠ 0 := hc
    rw [if_pos hc1, if_pos hc,
      if_neg (fun h => anytone_receive_ne_16 _ _ _ _ h.1), anytone_receive_world, hs2]
    rfl
  · have hc1 : ¬ ((anytone_send cmd n w).1 = RIG_OK ∧ e ≠ 0) := hc
    rw [if_neg hc1, if_neg hc]
    rfl

/-- What `anytone_set_vfo` does on a non-null handle with a device state,
whatever the transport answers. -/
theorem anytone_set_vfo_some (r : RIG) (p : anytone_priv_data_t) (vfo : vfo_t) (w : World)
    (hp : r.priv = some p) :
    anytone_set_vfo (some r) vfo w
      = some (RIG_OK, some { r with priv := some { p with vfo_curr := set_vfo_result w } },
          set_vfo_world w) := by
  simp [anytone_set_vfo, anytone_set_vfo_branch, anytone_transaction_some, anytone_send,
    write_block, rig_flush, read_block, hl_usleep, MUTEX_LOCK, MUTEX_UNLOCK, emit, hp,
    set_vfo_result, set_vfo_world, reply_buffer, vfo_of_byte, set_vfo_events, vfo_frame1,
    vfo_frame2]

theorem set_vfo_result_ne_none (w : World) : set_vfo_result w ≠ RIG_VFO_NONE := by
  unfold set_vfo_result vfo_of_byte
  split <;> simp

theorem set_vfo_result_of_data (w : World) (h : 9 ≤ (w.read_out w.nreads).data.length) :
    set_vfo_result w = vfo_of_byte ((w.read_out w.nreads).data.getD 8 0) := by
  unfold set_vfo_result uchar_at reply_buffer
  rw [List.getD_eq_getElem?_getD, List.getD_eq_getElem?_getD,
    fill_getElem?_of_lt _ _ 8 (by omega) (by simp)]

/-- What `anytone_set_ptt` does on a non-null handle with a device state,
whatever the transport answers. -/
theorem anytone_set_ptt_some (r : RIG) (p : anytone_priv_data_t) (ptt : Int) (w : World)
    (hp : r.priv = some p) :
    anytone_set_ptt (some r) ptt w
      = some (RIG_OK, some { r with priv := some { p with ptt := ptt } },
          set_ptt_world ptt w) := by
  by_cases hw : w.write_ret w.nwrites = RIG_OK <;> by_cases hptt : ptt = 0 <;>
    simp [anytone_set_ptt, anytone_transaction_some, anytone_send, write_block, rig_flush,
      MUTEX_LOCK, MUTEX_UNLOCK, emit, hp, set_ptt_world, set_ptt_events, ptt_frame, hw, hptt]

theorem anytone_thread_body_eq (w : World) :
    anytone_thread_body w
      = { w with nwrites := w.nwrites + 1, trace := w.trace ++ keepalive_events } := by
  simp [anytone_thread_body, write_block, rig_flush, hl_usleep, MUTEX_LOCK, MUTEX_UNLOCK, emit,
    keepalive_events]

/-- While the run flag is set, `n` evaluations of the loop condition run the
body `n` times. -/
theorem anytone_thread_loop_eq (n : Nat) (p : anytone_priv_data_t) (w : World)
    (h : p.runflag ≠ 0) : anytone_thread_loop n p w = keepalive_world n w := by
  induction n generalizing w with
  | zero => simp [anytone_thread_loop, keepalive_world]
  | succ k ih =>
    rw [anytone_thread_loop, if_pos h, ih, anytone_thread_body_eq]
    simp [keepalive_world, List.replicate_succ, Nat.add_assoc, Nat.add_comm 1 k]

/-! ## C1: the VFO select sequence -/

/-- C1: for either target, every device state and every transport on which the
two writes and the 16-byte read succeed, `anytone_set_vfo` returns success
after exactly: lock, flush + write of frame 1, 100 ms sleep, flush + write of
frame 2, one 16-byte block read, store of the VFO decoded from byte 8 of the
reply (A for 0x00, else B), unlock; and the result is the same for any other
requested target. -/
theorem set_vfo_sequence (r : RIG) (p : anytone_priv_data_t) (vfo vfo2 : vfo_t) (w : World)
    (hp : r.priv = some p)
    (_hw1 : w.write_ret w.nwrites = RIG_OK)
    (_hw2 : w.write_ret (w.nwrites + 1) = RIG_OK)
    (_hret : (w.read_out w.nreads).ret = 16)
    (hlen : (w.read_out w.nreads).data.length = 16) :
    observe (anytone_set_vfo (some r) vfo w)
      = some (RIG_OK,
          some { r with priv := some { p with
            vfo_curr := vfo_of_byte ((w.read_out w.nreads).data.getD 8 0) } },
          w.trace ++ set_vfo_events (vfo_of_byte ((w.read_out w.nreads).data.getD 8 0)))
    ∧ anytone_set_vfo (some r) vfo2 w = anytone_set_vfo (some r) vfo w := by
  constructor
  · simp [observe, anytone_set_vfo, anytone_set_vfo_branch, anytone_transaction, anytone_send,
      write_block, rig_flush, read_block, hl_usleep, MUTEX_LOCK, MUTEX_UNLOCK, emit, hp,
      uchar_at, vfo_of_byte, set_vfo_events, vfo_frame1, vfo_frame2]
    rw [fill_getElem?_of_lt _ _ 8 (by omega) (by simp)]
  · simp [anytone_set_vfo]

/-- C1 witness: target B on a transport that answers a status reply with 0x00
at offset 8; the driver ends on VFO A. -/
theorem set_vfo_sequence_witness :
    observe (anytone_set_vfo (some { priv := some (priv_of RIG_VFO_NONE) }) RIG_VFO_B
        (world_of (fun _ => 0) (fun _ => status_reply 0)))
      = some (RIG_OK, some { priv := some (priv_of RIG_VFO_A) }, set_vfo_events RIG_VFO_A) :=
  (set_vfo_sequence { priv := some (priv_of RIG_VFO_NONE) } (priv_of RIG_VFO_NONE)
    RIG_VFO_B RIG_VFO_A (world_of (fun _ => 0) (fun _ => status_reply 0))
    rfl rfl rfl rfl rfl).1

/-! ## C2: the status decode of `anytone_transaction` -/

/-- C2 (evaluation of the code): a PTT command with expected length 1 on a
device state with VFO Unknown; the write succeeds and the read delivers 16
bytes 0xAA 0x53 .. with 0x00 at offset 8.  `anytone_receive` turns the byte
count 16 into `RIG_OK`, the test `len == 16` fails and `vfo_curr` stays
Unknown instead of becoming A. -/
theorem transaction_drops_status_reply :
    observe (anytone_transaction (some { priv := some (priv_of RIG_VFO_NONE) })
        [0x41, 0x01, 0x00, 0x00, 0x00, 0x00, 0x00, 0x06] 8 1
        (world_of (fun _ => 0) (fun _ => status_reply 0)))
      = some (RIG_OK, some { priv := some (priv_of RIG_VFO_NONE) },
          [Ev.flush, Ev.write_block [0x41, 0x01, 0x00, 0x00, 0x00, 0x00, 0x00, 0x06],
           Ev.read_string 64 1]) := by
  decide

/-! ## C3: the VFO query -/

/-- C3: `anytone_get_vfo` on a non-null handle with a device state.  When
`vfo_curr` is A or B it returns success and that value, and leaves the world
(no transport call, nothing logged) and the rig object as they were.  When
`vfo_curr` is Unknown it runs `anytone_set_vfo` for B and then for A, exactly
these two exchanges, and returns success with the VFO stored by the second one:
never Unknown, and A for 0x00 / B otherwise at offset 8 of the second reply. -/
theorem get_vfo_cached_or_bootstrap (r : RIG) (p : anytone_priv_data_t) (w : World)
    (hp : r.priv = some p) :
    (p.vfo_curr ≠ RIG_VFO_NONE →
      anytone_get_vfo (some r) w = some ((RIG_OK, some p.vfo_curr), some r, w))
    ∧ (p.vfo_curr = RIG_VFO_NONE →
      ∃ c1 r1 w1 c2 r2 w2 v,
        anytone_set_vfo (some r) RIG_VFO_B w = some (c1, r1, w1)
        ∧ anytone_set_vfo r1 RIG_VFO_A w1 = some (c2, r2, w2)
        ∧ anytone_get_vfo (some r) w = some ((RIG_OK, some v), r2, w2)
        ∧ r2 = some { r with priv := some { p with vfo_curr := v } }
        ∧ v ≠ RIG_VFO_NONE
        ∧ v = vfo_of_byte (uchar_at (reply_buffer w (w.nreads + 1)) 8)
        ∧ (9 ≤ (w.read_out (w.nreads + 1)).data.length →
            v = vfo_of_byte ((w.read_out (w.nreads + 1)).data.getD 8 0))
        ∧ w2.trace = w.trace ++ set_vfo_events (set_vfo_result w) ++ set_vfo_events v
        ∧ w2.nwrites = w.nwrites + 4 ∧ w2.nreads = w.nreads + 2) := by
  constructor
  · intro h
    simp [anytone_get_vfo, hp, h]
  · intro h
    have h1 := anytone_set_vfo_some r p RIG_VFO_B w hp
    have h2 := anytone_set_vfo_some
      { r with priv := some { p with vfo_curr := set_vfo_result w } }
      { p with vfo_curr := set_vfo_result w } RIG_VFO_A (set_vfo_world w) rfl
    refine ⟨_, _, _, _, _, _, set_vfo_result (set_vfo_world w), h1, h2, ?_, rfl,
      set_vfo_result_ne_none _, rfl, ?_, rfl, rfl, rfl⟩
    · simp [anytone_get_vfo, hp, h, h1, h2]
    · intro hl
      exact set_vfo_result_of_data (set_vfo_world w) hl

/-- C3 witness: a device state on VFO B is answered from the cache; a fresh
device state whose transport answers a reply with 0x00 at offset 8 first and
0x01 second is reported as B after two exchanges. -/
theorem get_vfo_cached_or_bootstrap_witness :
    anytone_get_vfo (some { priv := some (priv_of RIG_VFO_B) })
        (world_of (fun _ => 0) (fun _ => status_reply 0))
      = some ((RIG_OK, some RIG_VFO_B), some { priv := some (priv_of RIG_VFO_B) },
          world_of (fun _ => 0) (fun _ => status_reply 0))
    ∧ observe (anytone_get_vfo (some { priv := some (priv_of RIG_VFO_NONE) })
        (world_of (fun _ => 0) (fun k => status_reply k)))
      = some ((RIG_OK, some RIG_VFO_B), some { priv := some (priv_of RIG_VFO_B) },
          set_vfo_events RIG_VFO_A ++ set_vfo_events RIG_VFO_B) :=
  ⟨(get_vfo_cached_or_bootstrap { priv := some (priv_of RIG_VFO_B) } (priv_of RIG_VFO_B)
      (world_of (fun _ => 0) (fun _ => status_reply 0)) rfl).1 (by decide),
   by
    obtain ⟨c1, r1, w1, c2, r2, w2, v, _, _, hg, hr, _, hv, _, ht, _⟩ :=
      (get_vfo_cached_or_bootstrap { priv := some (priv_of RIG_VFO_NONE) }
        (priv_of RIG_VFO_NONE) (world_of (fun _ => 0) (fun k => status_reply k)) rfl).2 rfl
    have hv2 : v = RIG_VFO_B := by rw [hv]; decide
    subst hv2
    rw [hg, hr]
    simp only [observe, Option.map_some', ht]
    rfl⟩

/-! ## C4: transport errors in the VFO select and in the PTT set -/

/-- C4 (counterexample): on a transport whose every write fails with an I/O
error and whose every read times out, `anytone_set_vfo` and `anytone_set_ptt`
both return `RIG_OK`, which is not the transport error. -/
theorem set_vfo_set_ptt_mask_errors :
    (observe (anytone_set_vfo (some { priv := some (priv_of RIG_VFO_A) }) RIG_VFO_A
        (world_of (fun _ => - RIG_EIO) (fun _ => { ret := -RIG_ETIMEOUT, data := [] })))).map
      (fun x => x.1) = some RIG_OK
    ∧ (observe (anytone_set_ptt (some { priv := some (priv_of RIG_VFO_A) }) 1
        (world_of (fun _ => - RIG_EIO) (fun _ => { ret := -RIG_ETIMEOUT, data := [] })))).map
      (fun x => x.1) = some RIG_OK
    ∧ RIG_OK ≠ - RIG_EIO ∧ RIG_OK ≠ -RIG_ETIMEOUT := by
  decide

/-- C4 (amended): on a non-null handle with a device state, `anytone_set_vfo`
and `anytone_set_ptt` return `RIG_OK` whatever the transport's writes and reads
return, and nothing is retried: the VFO select makes exactly two writes and one
read, the PTT set exactly one write and at most one read. -/
theorem set_vfo_set_ptt_no_retry (r : RIG) (p : anytone_priv_data_t) (vfo : vfo_t)
    (ptt : Int) (w : World) (hp : r.priv = some p) :
    (∃ r1 w1, anytone_set_vfo (some r) vfo w = some (RIG_OK, r1, w1)
        ∧ w1.nwrites = w.nwrites + 2 ∧ w1.nreads = w.nreads + 1)
    ∧ (∃ r2 w2, anytone_set_ptt (some r) ptt w = some (RIG_OK, r2, w2)
        ∧ w2.nwrites = w.nwrites + 1 ∧ w2.nreads ≤ w.nreads + 1) := by
  refine ⟨⟨_, _, anytone_set_vfo_some r p vfo w hp, rfl, rfl⟩,
    ⟨_, _, anytone_set_ptt_some r p ptt w hp, rfl, ?_⟩⟩
  show (if w.write_ret w.nwrites = RIG_OK then w.nreads + 1 else w.nreads) ≤ w.nreads + 1
  split <;> omega

/-- C4 witness: the amended statement on the transport of the counterexample. -/
theorem set_vfo_set_ptt_no_retry_witness :
    (∃ r1 w1, anytone_set_vfo (some { priv := some (priv_of RIG_VFO_A) }) RIG_VFO_B
          (world_of (fun _ => - RIG_EIO) (fun _ => { ret := -RIG_ETIMEOUT, data := [] }))
        = some (RIG_OK, r1, w1) ∧ w1.nwrites = 0 + 2 ∧ w1.nreads = 0 + 1)
    ∧ (∃ r2 w2, anytone_set_ptt (some { priv := some (priv_of RIG_VFO_A) }) 1
          (world_of (fun _ => - RIG_EIO) (fun _ => { ret := -RIG_ETIMEOUT, data := [] }))
        = some (RIG_OK, r2, w2) ∧ w2.nwrites = 0 + 1 ∧ w2.nreads ≤ 0 + 1) :=
  set_vfo_set_ptt_no_retry { priv := some (priv_of RIG_VFO_A) } (priv_of RIG_VFO_A) RIG_VFO_B 1
    (world_of (fun _ => - RIG_EIO) (fun _ => { ret := -RIG_ETIMEOUT, data := [] })) rfl

/-! ## C5: the return value of `anytone_transaction` -/

/-- C5 (counterexample): the write succeeds, a reply is expected and the read
times out; `anytone_transaction` returns `RIG_OK`, not the read's error. -/
theorem transaction_masks_read_error :
    (observe (anytone_transaction (some { priv := some (priv_of RIG_VFO_A) })
        (ptt_frame 1) 8 1
        (world_of (fun _ => 0) (fun _ => { ret := -RIG_ETIMEOUT, data := [] })))).map
      (fun x => x.1) = some RIG_OK
    ∧ RIG_OK ≠ -RIG_ETIMEOUT := by
  decide

/-- C5 (amended): on a non-null handle, when the command write fails
`anytone_transaction` returns the write's error, performs no read and leaves
the device state as it was; when the write succeeds, a reply is expected and
the read fails, it returns `RIG_OK` (the read's error is not returned) after
that one read, and leaves the device state as it was. -/
theorem transaction_error_results (r : RIG) (cmd : List Nat) (n : Nat) (e : Int) (w : World) :
    (w.write_ret w.nwrites ≠ RIG_OK →
      observe (anytone_transaction (some r) cmd n e w)
        = some (w.write_ret w.nwrites, some r,
            w.trace ++ [Ev.flush, Ev.write_block (cmd.take n)]))
    ∧ (w.write_ret w.nwrites = RIG_OK → e ≠ 0 → (w.read_out w.nreads).ret < 0 →
      observe (anytone_transaction (some r) cmd n e w)
        = some (RIG_OK, some r,
            w.trace ++ [Ev.flush, Ev.write_block (cmd.take n), Ev.read_string 64 e])) := by
  constructor
  · intro h
    simp [observe, anytone_transaction_some, anytone_send, write_block, rig_flush, emit, h]
  · intro h he _
    simp [observe, anytone_transaction_some, anytone_send, write_block, rig_flush, emit, h, he]

/-- C5 witness: a failing write on one transport, a read time-out on another. -/
theorem transaction_error_results_witness :
    observe (anytone_transaction (some { priv := some (priv_of RIG_VFO_A) }) (ptt_frame 1) 8 1
        (world_of (fun _ => - RIG_EIO) (fun _ => status_reply 0)))
      = some (- RIG_EIO, some { priv := some (priv_of RIG_VFO_A) },
          [Ev.flush, Ev.write_block (ptt_frame 1)])
    ∧ observe (anytone_transaction (some { priv := some (priv_of RIG_VFO_A) }) (ptt_frame 1) 8 1
        (world_of (fun _ => 0) (fun _ => { ret := -RIG_ETIMEOUT, data := [] })))
      = some (RIG_OK, some { priv := some (priv_of RIG_VFO_A) },
          [Ev.flush, Ev.write_block (ptt_frame 1), Ev.read_string 64 1]) :=
  ⟨(transaction_error_results { priv := some (priv_of RIG_VFO_A) } (ptt_frame 1) 8 1
      (world_of (fun _ => - RIG_EIO) (fun _ => status_reply 0))).1 (by decide),
   (transaction_error_results { priv := some (priv_of RIG_VFO_A) } (ptt_frame 1) 8 1
      (world_of (fun _ => 0) (fun _ => { ret := -RIG_ETIMEOUT, data := [] }))).2
      (by decide) (by decide) (by decide)⟩

/-! ## C6: replies that are not a status reply -/

/-- C6 (counterexample): the device state is on VFO A, both writes succeed and
the read delivers 16 bytes that do not start with 0xAA 0x53 and hold 0x01 at
offset 8; `anytone_set_vfo` returns success and `vfo_curr` becomes B. -/
theorem set_vfo_decodes_unchecked_reply :
    observe (anytone_set_vfo (some { priv := some (priv_of RIG_VFO_A) }) RIG_VFO_A
        (world_of (fun _ => 0)
          (fun _ => { ret := 16, data := [0, 0, 0, 0, 0, 0, 0, 0, 1, 0, 0, 0, 0, 0, 0, 0] })))
      = some (RIG_OK, some { priv := some (priv_of RIG_VFO_B) }, set_vfo_events RIG_VFO_B)
    ∧ priv_of RIG_VFO_B ≠ priv_of RIG_VFO_A := by
  decide

/-- C6 (amended): for `anytone_transaction` with a reply expected, if the write
succeeds and the reply is not exactly 16 bytes starting with 0xAA 0x53, the
call returns success and the device state is what it was.  `anytone_set_vfo`
does not check its reply: it returns success, and when its read delivers 16
bytes it stores the VFO of byte 8 (A for 0x00, else B) whatever the first two
bytes are. -/
theorem malformed_reply_results (r : RIG) (p : anytone_priv_data_t) (cmd : List Nat) (n : Nat)
    (e : Int) (vfo : vfo_t) (w : World) (hp : r.priv = some p) :
    (w.write_ret w.nwrites = RIG_OK → e ≠ 0 →
      ¬ ((w.read_out w.nreads).ret = 16 ∧ (w.read_out w.nreads).data.length = 16
          ∧ (w.read_out w.nreads).data.getD 0 0 = 0xaa
          ∧ (w.read_out w.nreads).data.getD 1 0 = 0x53) →
      observe (anytone_transaction (some r) cmd n e w)
        = some (RIG_OK, some r,
            w.trace ++ [Ev.flush, Ev.write_block (cmd.take n), Ev.read_string 64 e]))
    ∧ (∃ r1 w1, anytone_set_vfo (some r) vfo w = some (RIG_OK, r1, w1))
    ∧ ((w.read_out w.nreads).data.length = 16 →
      observe (anytone_set_vfo (some r) vfo w)
        = some (RIG_OK,
            some { r with priv := some { p with
              vfo_curr := vfo_of_byte ((w.read_out w.nreads).data.getD 8 0) } },
            w.trace ++ set_vfo_events (vfo_of_byte ((w.read_out w.nreads).data.getD 8 0)))) := by
  refine ⟨?_, ⟨_, _, anytone_set_vfo_some r p vfo w hp⟩, ?_⟩
  · intro h he _
    simp [observe, anytone_transaction_some, anytone_send, write_block, rig_flush, emit, h, he]
  · intro hl
    rw [anytone_set_vfo_some r p vfo w hp]
    simp only [observe, Option.map_some', set_vfo_world, set_vfo_result_of_data w (by omega)]

/-- C6 witness: a 3-byte reply to a PTT command leaves VFO A in place; a
16-byte reply without the signature moves `anytone_set_vfo` from A to B. -/
theorem malformed_reply_results_witness :
    observe (anytone_transaction (some { priv := some (priv_of RIG_VFO_A) }) (ptt_frame 1) 8 1
        (world_of (fun _ => 0) (fun _ => { ret := 3, data := [0xaa, 0x53, 0x01] })))
      = some (RIG_OK, some { priv := some (priv_of RIG_VFO_A) },
          [Ev.flush, Ev.write_block (ptt_frame 1), Ev.read_string 64 1])
    ∧ observe (anytone_set_vfo (some { priv := some (priv_of RIG_VFO_A) }) RIG_VFO_A
        (world_of (fun _ => 0)
          (fun _ => { ret := 16, data := [0, 0, 0, 0, 0, 0, 0, 0, 1, 0, 0, 0, 0, 0, 0, 0] })))
      = some (RIG_OK, some { priv := some (priv_of RIG_VFO_B) }, set_vfo_events RIG_VFO_B) :=
  ⟨(malformed_reply_results { priv := some (priv_of RIG_VFO_A) } (priv_of RIG_VFO_A)
      (ptt_frame 1) 8 1 RIG_VFO_A
      (world_of (fun _ => 0) (fun _ => { ret := 3, data := [0xaa, 0x53, 0x01] })) rfl).1
      (by decide) (by decide) (by decide),
   (malformed_reply_results { priv := some (priv_of RIG_VFO_A) } (priv_of RIG_VFO_A)
      (ptt_frame 1) 8 1 RIG_VFO_A
      (world_of (fun _ => 0)
        (fun _ => { ret := 16, data := [0, 0, 0, 0, 0, 0, 0, 0, 1, 0, 0, 0, 0, 0, 0, 0] }))
      rfl).2.2 (by decide)⟩

/-! ## C7: the PTT command frame -/

/-- C7 (counterexample): when the write of the PTT frame fails, no reply read
follows it. -/
theorem set_ptt_no_read_after_failed_write :
    (observe (anytone_set_ptt (some { priv := some (priv_of RIG_VFO_A) }) 1
        (world_of (fun _ => - RIG_EIO) (fun _ => status_reply 0)))).map (fun x => x.2.2)
      = some [Ev.lock LockRef.p_mutex, Ev.flush,
          Ev.write_block [0x41, 0x01, 0x00, 0x00, 0x00, 0x00, 0x00, 0x06],
          Ev.store_ptt 1, Ev.unlock LockRef.p_mutex] := by
  decide

/-- C7 (amended): for every PTT request on a non-null handle with a device
state, `anytone_set_ptt` writes exactly one frame, the 8 bytes
0x41, b, 0, 0, 0, 0, 0, 0x06 with b = 0x01 for a non-zero request and 0x00 for
zero; the write is preceded by a flush and, when it returns `RIG_OK`, followed
by one `read_string` with buffer length 64 and expected length 1; when the
write fails there is no read. -/
theorem set_ptt_frame_and_reply (r : RIG) (p : anytone_priv_data_t) (ptt : Int) (w : World)
    (hp : r.priv = some p) :
    observe (anytone_set_ptt (some r) ptt w)
      = some (RIG_OK, some { r with priv := some { p with ptt := ptt } },
          w.trace
            ++ [Ev.lock LockRef.p_mutex, Ev.flush,
                Ev.write_block [0x41, if ptt ≠ 0 then 0x01 else 0x00, 0x00, 0x00, 0x00, 0x00,
                  0x00, 0x06]]
            ++ (if w.write_ret w.nwrites = RIG_OK then [Ev.read_string 64 1] else [])
            ++ [Ev.store_ptt ptt, Ev.unlock LockRef.p_mutex]) := by
  rw [anytone_set_ptt_some r p ptt w hp]
  simp [observe, set_ptt_world, set_ptt_events, ptt_frame]

/-- C7 witness: PTT on, the write succeeds. -/
theorem set_ptt_frame_and_reply_witness :
    observe (anytone_set_ptt (some { priv := some (priv_of RIG_VFO_A) }) 1
        (world_of (fun _ => 0) (fun _ => status_reply 0)))
      = some (RIG_OK, some { priv := some { ptt := 1, vfo_curr := RIG_VFO_A, runflag := 0 } },
          [Ev.lock LockRef.p_mutex, Ev.flush,
           Ev.write_block [0x41, 0x01, 0x00, 0x00, 0x00, 0x00, 0x00, 0x06],
           Ev.read_string 64 1, Ev.store_ptt 1, Ev.unlock LockRef.p_mutex]) :=
  set_ptt_frame_and_reply { priv := some (priv_of RIG_VFO_A) } (priv_of RIG_VFO_A) 1
    (world_of (fun _ => 0) (fun _ => status_reply 0)) rfl

/-! ## C8: the cached PTT value -/

/-- C8: for every PTT value `v` and every device state, `anytone_set_ptt`
returns, and `anytone_get_ptt` on the state it leaves returns success with the
value `v`, leaving the world (no flush, write or read, nothing logged) and the
rig object exactly as they were. -/
theorem get_ptt_after_set_ptt (r : RIG) (p : anytone_priv_data_t) (v : Int) (w : World)
    (hp : r.priv = some p) :
    ∃ c r1 w1, anytone_set_ptt (some r) v w = some (c, r1, w1)
      ∧ anytone_get_ptt r1 w1 = some ((RIG_OK, some v), r1, w1) := by
  refine ⟨_, _, _, anytone_set_ptt_some r p v w hp, ?_⟩
  simp [anytone_get_ptt]

/-- C8 witness: PTT on, then the query. -/
theorem get_ptt_after_set_ptt_witness :
    ∃ c r1 w1, anytone_set_ptt (some { priv := some (priv_of RIG_VFO_NONE) }) 1
          (world_of (fun _ => 0) (fun _ => status_reply 0)) = some (c, r1, w1)
      ∧ anytone_get_ptt r1 w1 = some ((RIG_OK, some 1), r1, w1) :=
  get_ptt_after_set_ptt { priv := some (priv_of RIG_VFO_NONE) } (priv_of RIG_VFO_NONE) 1
    (world_of (fun _ => 0) (fun _ => status_reply 0)) rfl

/-! ## C9: allocation failure in `anytone_init` -/

/-- C9 (evaluation of the code): on a non-null handle, when `calloc` returns
NULL, `anytone_init` sets `retval` to OutOfMemory and stores NULL in
`rig->state.priv`, but then goes on to `p->vfo_curr = RIG_VFO_NONE` through the
NULL pointer: it does not return. -/
theorem init_alloc_failure_derefs_null (r : RIG) : anytone_init (some r) false = none := by
  simp [anytone_init]

/-! ## C10: the keep-alive loop -/

/-- C10 (counterexample): one iteration of the keep-alive loop does not end
with a 900 ms sleep; it sleeps 1000 ms after releasing the lock. -/
theorem keepalive_sleeps_one_second :
    (anytone_thread_body (world_of (fun _ => 0) (fun _ => status_reply 0))).trace
      ≠ spec_keepalive_events
    ∧ (anytone_thread_body (world_of (fun _ => 0) (fun _ => status_reply 0))).trace
      = [Ev.lock LockRef.p_priv_mutex, Ev.write_block [0x06], Ev.usleep 100000, Ev.flush,
         Ev.unlock LockRef.p_priv_mutex, Ev.usleep 1000000] := by
  decide

/-- C10 (amended): the thread sets the run flag and, with the flag set, each of
the first `n` iterations of its loop performs exactly: MUTEX_LOCK, write of
the single byte 0x06, 100 ms sleep, flush, MUTEX_UNLOCK on the same argument,
1000 ms sleep.  The write and the flush lie between the lock and the unlock,
no iteration reads, and `vfo_curr` and `ptt` are not changed. -/
theorem keepalive_iterations (n : Nat) (r : RIG) (p : anytone_priv_data_t) (w : World)
    (hp : r.priv = some p) :
    ∃ w1, anytone_thread n (some r) w = some ({ r with priv := some { p with runflag := 1 } }, w1)
      ∧ w1.trace = w.trace ++ [Ev.store_runflag 1]
          ++ (List.replicate n
              [Ev.lock LockRef.p_priv_mutex, Ev.write_block [0x06], Ev.usleep 100000, Ev.flush,
               Ev.unlock LockRef.p_priv_mutex, Ev.usleep 1000000]).flatten
      ∧ w1.nwrites = w.nwrites + n
      ∧ w1.nreads = w.nreads := by
  refine ⟨keepalive_world n (emit (Ev.store_runflag 1) w), ?_, rfl, rfl, rfl⟩
  simp only [anytone_thread, hp]
  rw [anytone_thread_loop_eq n _ _ (show (1 : Int) ≠ 0 by decide)]

/-- C10 witness: two iterations on a fresh device state. -/
theorem keepalive_iterations_witness :
    ∃ w1, anytone_thread 2 (some { priv := some (priv_of RIG_VFO_B) })
          (world_of (fun _ => 0) (fun _ => status_reply 0))
        = some ({ priv := some { ptt := 0, vfo_curr := RIG_VFO_B, runflag := 1 } }, w1)
      ∧ w1.trace = [] ++ [Ev.store_runflag 1]
          ++ (List.replicate 2
              [Ev.lock LockRef.p_priv_mutex, Ev.write_block [0x06], Ev.usleep 100000, Ev.flush,
               Ev.unlock LockRef.p_priv_mutex, Ev.usleep 1000000]).flatten
      ∧ w1.nwrites = 0 + 2
      ∧ w1.nreads = 0 :=
  keepalive_iterations 2 { priv := some (priv_of RIG_VFO_B) } (priv_of RIG_VFO_B)
    (world_of (fun _ => 0) (fun _ => status_reply 0)) rfl

end Anytone
